import Mathlib

/-!
Verification of the VDS2425 Madrid air-quality aggregation pipeline.

Shallow embedding of the two source files:
* `dataPreparation.py` — the Annual Aggregator (per-year pollutant means).
* `main.py` — the Seasonal Aggregator (`seasonal_pollution_chart`), the
  Seasonal Share Aggregator (`seasonal_pollution_pie_chart`) and the
  Station Ranking Aggregator (`station_ranking_chart`).

Modelling conventions:
* A CSV file is a `Csv`: its file name, whether it has a `date` column, the
  names of its remaining columns, and its rows.  A cell is `Option ℚ`
  (missing = `none`, mirroring NaN); concentrations are embedded as exact
  rationals.  A date cell carries the already-parsed result
  (`Option SDate`): `none` models both an empty field and an unparseable
  string coerced to NaT, the form in which every aggregation step in the
  source observes the date.
* pandas `mean` over a column skips missing values and yields NaN on an
  all-missing column: embedded as `meanOpt : List ℚ → Option ℚ`.
* pandas `sum` skips missing values and returns 0 on an empty/all-missing
  column: embedded by summing the present values.
* Python exceptions are embedded as `Except PipeErr`; the distinct
  exception classes raised by the source become distinct `PipeErr`
  constructors.
* `sorted(...)` over file names (`os.listdir` / `glob.glob` results) is
  embedded as insertion sort by file name.
-/

/-- A parsed calendar date, reduced to the fields the pipeline reads
(`dt.year` and `dt.month`). -/
structure SDate where
  year : Int
  month : Nat
deriving DecidableEq, Repr

/-- One CSV row: the parsed date cell plus the cells of the remaining
columns, keyed by column name.  A column absent from the association list
reads as missing. -/
structure Row where
  date : Option SDate
  cells : List (String × Option ℚ)
deriving DecidableEq, Repr

/-- Read the cell of column `c` (missing if the column has no entry). -/
def Row.get (r : Row) (c : String) : Option ℚ :=
  (r.cells.lookup c).join

/-- One input CSV file. -/
structure Csv where
  name : String
  hasDate : Bool
  cols : List String
  rows : List Row
deriving DecidableEq, Repr

/-- The distinct Python exception classes the pipeline can raise. -/
inductive PipeErr where
  /-- `FileNotFoundError` when the glob matches zero files. -/
  | noInput : PipeErr
  /-- `ValueError` from `read_csv(parse_dates=['date'])` on a file with no
  `date` column (carries the file name). -/
  | missingColumn : String → PipeErr
  /-- `ValueError("No data found for pollutant ...")` in the pie chart. -/
  | noData : String → PipeErr
  /-- `ValueError` from `int(...)` on a file name that does not parse. -/
  | badFileName : String → PipeErr
  /-- `KeyError` from `sort_values('year')` on an empty frame. -/
  | keyError : String → PipeErr
deriving DecidableEq, Repr

/-- Whether an `Except` result is an error. -/
def isErr {ε α : Type} : Except ε α → Bool
  | .error _ => true
  | .ok _ => false

instance {ε α : Type} [DecidableEq ε] [DecidableEq α] : DecidableEq (Except ε α) := fun a b =>
  match a, b with
  | .error e1, .error e2 =>
    if h : e1 = e2 then .isTrue (by rw [h]) else .isFalse (fun hc => by cases hc; exact h rfl)
  | .error _, .ok _ => .isFalse (fun hc => by cases hc)
  | .ok _, .error _ => .isFalse (fun hc => by cases hc)
  | .ok a1, .ok a2 =>
    if h : a1 = a2 then .isTrue (by rw [h]) else .isFalse (fun hc => by cases hc; exact h rfl)

/-- Arithmetic mean of a list of rationals (`sum/length`; only ever used on
nonempty lists via `meanOpt`). -/
def meanQ (l : List ℚ) : ℚ :=
  l.sum / l.length

/-- pandas column mean: skip missing values, NaN (here `none`) when no value
is present. -/
def meanOpt (l : List ℚ) : Option ℚ :=
  if l = [] then none else some (meanQ l)

/-- `sorted(...)` over files compares the file-name strings; Python compares
strings lexicographically by code point, i.e. by the lexicographic order on
the character lists. -/
def nameLe (a b : Csv) : Prop := a.name.data ≤ b.name.data

instance : DecidableRel nameLe := fun a b => inferInstanceAs (Decidable (a.name.data ≤ b.name.data))

instance : IsTotal Csv nameLe := ⟨fun a b => le_total a.name.data b.name.data⟩

instance : IsTrans Csv nameLe := ⟨fun _ _ _ h1 h2 => le_trans h1 h2⟩

/-- The sorted order in which both `sorted(os.listdir(...))` and
`sorted(glob.glob(...))` present the input files. -/
def sortByName (files : List Csv) : List Csv :=
  files.insertionSort nameLe

/-- Season of a month, as computed by the `month → season` lambda of
`main.py` (lines 28–31 and 109–112).  pandas `Series.map` applies the
lambda to a missing month as well (NaN is not equal to any listed month),
so a missing month falls through every branch to `"Fall"`. -/
def seasonOfMonth : Option Nat → String
  | some m =>
    if m = 12 ∨ m = 1 ∨ m = 2 then "Winter"
    else if m = 3 ∨ m = 4 ∨ m = 5 then "Spring"
    else if m = 6 ∨ m = 7 ∨ m = 8 then "Summer"
    else "Fall"
  | none => "Fall"

/-! ### Annual Aggregator (`dataPreparation.py`) -/

/-- The tracked pollutant vocabulary of `dataPreparation.py` (line 6). -/
def POLLUTANTS : List String := ["NO_2", "PM10", "O_3", "CO", "SO_2"]

/-- Python `str.split(sep)` for a single-character separator, on the
character list: `"".split(c)` is `['']`, and every occurrence of the
separator starts a new chunk. -/
def splitOnChar (c : Char) : List Char → List (List Char)
  | [] => [[]]
  | x :: xs =>
    let r := splitOnChar c xs
    if x = c then [] :: r
    else
      match r with
      | [] => [[x]]
      | y :: ys => (x :: y) :: ys

/-- The numeric value of a decimal digit character, `none` otherwise. -/
def digitVal (c : Char) : Option Nat :=
  if '0' ≤ c ∧ c ≤ '9' then some (c.toNat - '0'.toNat) else none

/-- Accumulate decimal digits; fail on the first non-digit. -/
def digitsAux : List Char → Nat → Option Nat
  | [], acc => some acc
  | c :: cs, acc =>
    match digitVal c with
    | none => none
    | some d => digitsAux cs (acc * 10 + d)

/-- Python `int(s)` restricted to the shapes the pipeline can meet: an
optional sign followed by decimal digits; everything else raises
(`none`). -/
def intOfChars : List Char → Option Int
  | [] => none
  | '-' :: rest => if rest = [] then none else (digitsAux rest 0).map fun n => -(n : Int)
  | '+' :: rest => if rest = [] then none else (digitsAux rest 0).map fun n => (n : Int)
  | l => (digitsAux l 0).map fun n => (n : Int)

/-- `int(file.split('_')[1].split('.')[0])` (line 14); `none` models the
`ValueError`/`IndexError` Python would raise. -/
def declaredYear (name : String) : Option Int :=
  match (splitOnChar '_' name.data).get? 1 with
  | none => none
  | some s => intOfChars ((splitOnChar '.' s).headD s)

/-- The file filter of line 11: process only `.csv` files other than
`stations.csv` (`str.endswith` is suffix testing on the characters). -/
def eligible (f : Csv) : Bool :=
  (".csv".data).isSuffixOf f.name.data && f.name ≠ "stations.csv"

/-- Lines 18–31 for one eligible file with declared year `y`:
skip when the `date` column is absent; filter rows to those whose parsed
year equals `y` (a NaT date has a missing year, which never equals `y`);
skip when no tracked pollutant column is present or no row passes the
filter; otherwise emit the per-pollutant means over the filtered rows. -/
structure AnnualRow where
  year : Int
  means : List (String × Option ℚ)
deriving DecidableEq, Repr

/-- Process one eligible file of the annual loop (lines 16–31). -/
def annualOfFile (y : Int) (f : Csv) : Option AnnualRow :=
  if ¬ f.hasDate then none
  else
    let rows := f.rows.filter fun r => decide (r.date.map SDate.year = some y)
    let validCols := POLLUTANTS.filter fun c => decide (c ∈ f.cols)
    if validCols = [] ∨ rows = [] then none
    else some ⟨y, validCols.map fun c => (c, meanOpt (rows.filterMap (·.get c)))⟩

/-- One iteration of the annual loop: skip ineligible files, abort on an
unparseable file name, otherwise run `annualOfFile`. -/
def annualStep (f : Csv) : Except PipeErr (Option AnnualRow) :=
  if ¬ eligible f then .ok none
  else
    match declaredYear f.name with
    | none => .error (.badFileName f.name)
    | some y => .ok (annualOfFile y f)

/-- The annual loop over the (already sorted) directory listing,
accumulating `annual_data` in file order. -/
def collectAnnual : List Csv → Except PipeErr (List AnnualRow)
  | [] => .ok []
  | f :: fs =>
    match annualStep f with
    | .error e => .error e
    | .ok none => collectAnnual fs
    | .ok (some row) => (collectAnnual fs).map (row :: ·)

/-- `sort_values('year')` comparison. -/
def yearLe (a b : AnnualRow) : Prop := a.year ≤ b.year

instance : DecidableRel yearLe := fun a b => inferInstanceAs (Decidable (a.year ≤ b.year))

instance : IsTotal AnnualRow yearLe := ⟨fun a b => le_total a.year b.year⟩

instance : IsTrans AnnualRow yearLe := ⟨fun _ _ _ h1 h2 => le_trans h1 h2⟩

/-- `pd.DataFrame(annual_data).sort_values('year')` (lines 33–34). -/
def sortByYear (l : List AnnualRow) : List AnnualRow :=
  l.insertionSort yearLe

/-- The annual pipeline on the sorted listing: run the loop, then sort by
year; an empty `annual_data` makes `sort_values('year')` raise `KeyError`
(the frame has no columns). -/
def annualSorted (fs : List Csv) : Except PipeErr (List AnnualRow) :=
  match collectAnnual fs with
  | .error e => .error e
  | .ok [] => .error (.keyError "year")
  | .ok l => .ok (sortByYear l)

/-- The whole of `dataPreparation.py`: `sorted(os.listdir(DATA_DIR))`, the
loop, the final sort. -/
def annualPipeline (files : List Csv) : Except PipeErr (List AnnualRow) :=
  annualSorted (sortByName files)

/-! ### Seasonal Aggregator (`seasonal_pollution_chart`, `main.py` 13–46) -/

/-- The `id_vars`/housekeeping names excluded from the melt
(`main.py` lines 34–35): exactly these five literal column names. -/
def HOUSE : List String := ["date", "station_id", "month", "year", "season"]

/-- One row of the long-form (melted) data: the derived year (missing when
the date is missing), the derived season, the melted column name
(`pollutant`) and the non-missing value. -/
structure LongRow where
  year : Option Int
  season : String
  pollutant : String
  value : ℚ
deriving DecidableEq, Repr

/-- Lines 25–39 for one file: derive year/month/season from the date,
melt every column not in `HOUSE`, and drop melted rows with a missing
value. -/
def meltFile (f : Csv) : List LongRow :=
  f.rows.flatMap fun r =>
    (f.cols.filter fun c => decide (c ∉ HOUSE)).filterMap fun c =>
      (r.get c).map fun v =>
        ⟨r.date.map SDate.year, seasonOfMonth (r.date.map SDate.month), c, v⟩

/-- The per-file loop of lines 24–39: `read_csv(parse_dates=['date'])`
raises a `ValueError` when the `date` column is absent; otherwise the file
is melted. -/
def seasonalCollect : List Csv → Except PipeErr (List (List LongRow))
  | [] => .ok []
  | f :: fs =>
    if ¬ f.hasDate then .error (.missingColumn f.name)
    else (seasonalCollect fs).map (meltFile f :: ·)

/-- One row of `data_avg`: a `(year, season, pollutant)` group key with the
group's mean value. -/
structure AvgRow where
  year : Int
  season : String
  pollutant : String
  avg : ℚ
deriving DecidableEq, Repr

/-- The distinct group keys of `groupby(['year','season','pollutant'])`;
rows with a missing year are dropped (pandas `groupby` drops missing group
keys). -/
def groupKeys (l : List LongRow) : List (Int × String × String) :=
  (l.filterMap fun r => r.year.map fun y => (y, r.season, r.pollutant)).dedup

/-- The values of one `(year, season, pollutant)` group. -/
def groupVals (l : List LongRow) (k : Int × String × String) : List ℚ :=
  (l.filter fun r =>
    decide (r.year = some k.1) && decide (r.season = k.2.1) && decide (r.pollutant = k.2.2)).map
    (·.value)

/-- `data.groupby(['year','season','pollutant']).agg(avg_value=('value','mean'))`
(lines 43–44): one row per group, carrying the group mean.  Every group is
nonempty by construction, so the mean is total. -/
def dataAvg (l : List LongRow) : List AvgRow :=
  (groupKeys l).map fun k => ⟨k.1, k.2.1, k.2.2, meanQ (groupVals l k)⟩

/-- pandas `rank(ascending=False, method='dense')` of value `v` within the
value list `grp`: one plus the number of distinct group values strictly
greater than `v`. -/
def denseRank (grp : List ℚ) (v : ℚ) : Nat :=
  1 + ((grp.filter fun x => decide (v < x)).dedup).length

/-- The `avg_value`s of the `(year, pollutant)` group of `r` within
`rows`. -/
def rankGroup (rows : List AvgRow) (r : AvgRow) : List ℚ :=
  (rows.filter fun s => decide (s.year = r.year) && decide (s.pollutant = r.pollutant)).map (·.avg)

/-- Lines 45–46: attach to every `data_avg` row its dense rank (descending)
within its `(year, pollutant)` group. -/
def rankCol (rows : List AvgRow) : List (AvgRow × Nat) :=
  rows.map fun r => (r, denseRank (rankGroup rows r) r.avg)

/-- The seasonal pipeline on the sorted glob result: a `FileNotFoundError`
when the glob matched nothing, otherwise melt every file, concatenate,
group, average and rank. -/
def seasonalSorted (fs : List Csv) : Except PipeErr (List (AvgRow × Nat)) :=
  if fs = [] then .error .noInput
  else
    match seasonalCollect fs with
    | .error e => .error e
    | .ok ls => .ok (rankCol (dataAvg ls.flatten))

/-- The whole aggregation of `seasonal_pollution_chart` (lines 18–46). -/
def seasonalPipeline (files : List Csv) : Except PipeErr (List (AvgRow × Nat)) :=
  seasonalSorted (sortByName files)

/-! ### Seasonal Share Aggregator (`seasonal_pollution_pie_chart`, `main.py` 95–123) -/

/-- The canonical season order used by `reindex` (line 121). -/
def SEASONS : List String := ["Winter", "Spring", "Summer", "Fall"]

/-- Lines 108–113 for one file containing the target pollutant column:
derive the season and keep the `(season, value)` pairs whose value is
present (`[['season', pollutant]].dropna()`; the season entry is always a
string, so only a missing value drops a row). -/
def pieFileRows (p : String) (f : Csv) : List (String × ℚ) :=
  f.rows.filterMap fun r =>
    (r.get p).map fun v => (seasonOfMonth (r.date.map SDate.month), v)

/-- The per-file loop of lines 102–113: `read_csv(parse_dates=['date'])`
raises on a file without a `date` column; a file lacking the target
pollutant column is skipped (warning printed, non-fatal); every other file
contributes its `(season, value)` pairs. -/
def pieCollect (p : String) : List Csv → Except PipeErr (List (List (String × ℚ)))
  | [] => .ok []
  | f :: fs =>
    if ¬ f.hasDate then .error (.missingColumn f.name)
    else if decide (p ∈ f.cols) then (pieCollect p fs).map (pieFileRows p f :: ·)
    else pieCollect p fs

/-- One row of the pie-chart table: season, all-time season mean, and the
mean's share of the four-season total. -/
structure PieRow where
  season : String
  mean : Option ℚ
  percent : Option ℚ
deriving DecidableEq, Repr

/-- Lines 118–123: concatenate all kept `(season, value)` pairs, group by
season, take the mean, reindex to the canonical four seasons (an absent
season gets a missing mean), and divide each mean by the pandas `sum` of
the means (which skips missing entries).  When that sum is zero, `ℚ`
division yields 0 where floating point yields NaN/inf; under either
semantics the shares then fail to sum to 1, which is the only fact the
development uses about this degenerate case. -/
def mkShares (kept : List (List (String × ℚ))) : List PieRow :=
  let all := kept.flatten
  let means := SEASONS.map fun s =>
    (s, meanOpt ((all.filter fun x => decide (x.1 = s)).map (·.2)))
  let total := (means.filterMap (·.2)).sum
  means.map fun sm => ⟨sm.1, sm.2, sm.2.map (· / total)⟩

/-- The pie pipeline on the sorted glob result: run the loop; if no file
contained the target pollutant column, `df_list` is empty and line 116
raises a `ValueError`; otherwise build the share table. -/
def pieSorted (p : String) (fs : List Csv) : Except PipeErr (List PieRow) :=
  match pieCollect p fs with
  | .error e => .error e
  | .ok [] => .error (.noData p)
  | .ok kept => .ok (mkShares kept)

/-- The whole aggregation of `seasonal_pollution_pie_chart` (lines 100–123). -/
def pieShares (p : String) (files : List Csv) : Except PipeErr (List PieRow) :=
  pieSorted p (sortByName files)

/-- The pandas sum of the `percent` column of the share table (missing
entries skipped). -/
def shareSum (l : List PieRow) : ℚ :=
  (l.filterMap (·.percent)).sum

/-- The pandas sum of the mean column of the share table (missing entries
skipped). -/
def shareTotal (l : List PieRow) : ℚ :=
  (l.filterMap (·.mean)).sum

/-! ### Station Ranking Aggregator (`station_ranking_chart`, `main.py` 151–181) -/

/-- The three fixed pollutants of line 161. -/
def SEL : List String := ["NO", "NO_2", "NOx"]

/-- The distinct station identifiers of `groupby("station")` (rows with a
missing station are dropped by pandas `groupby`). -/
def stationKeys (f : Csv) : List ℚ :=
  (f.rows.filterMap (·.get "station")).dedup

/-- The per-station mean of pollutant `p` (missing when the station has no
present value for `p`). -/
def meanOf (f : Csv) (s : ℚ) (p : String) : Option ℚ :=
  meanOpt ((f.rows.filter fun r => decide (r.get "station" = some s)).filterMap (·.get p))

/-- The display name after the left join with the station metadata and the
`fillna(station.astype(str))` of lines 168–172: the metadata name when the
station id matches and the name is present, the stringified raw identifier
otherwise. -/
def displayName (meta : List (ℚ × Option String)) (s : ℚ) : String :=
  match meta.lookup s with
  | some (some n) => n
  | some none => toString s
  | none => toString s

/-- One entry of a per-pollutant ranking list. -/
structure RankRow where
  name : String
  val : ℚ
deriving DecidableEq, Repr

/-- Descending comparison on the ranked value (`sort_values(ascending=False)`,
line 180). -/
def valGe (a b : RankRow) : Prop := b.val ≤ a.val

instance : DecidableRel valGe := fun a b => inferInstanceAs (Decidable (b.val ≤ a.val))

instance : IsTotal RankRow valGe := ⟨fun a b => (le_total b.val a.val).imp id id⟩

instance : IsTrans RankRow valGe := ⟨fun _ _ _ h1 h2 => le_trans h2 h1⟩

/-- Lines 163–181 for one pollutant `p`: per-station means, join of display
names, `dropna()` (drop the stations whose mean for `p` is missing), then
sort descending by the mean. -/
def stationList (f : Csv) (meta : List (ℚ × Option String)) (p : String) : List RankRow :=
  (((stationKeys f).filterMap fun s =>
      (meanOf f s p).map fun v => RankRow.mk (displayName meta s) v).insertionSort valGe)

/-! ### Concrete input files used by the witnesses and counterexamples -/

/-- A well-formed yearly file: two dated rows (one Winter, one Spring) with
present `NO_2` values. -/
def exWinter : Csv :=
  ⟨"madrid_2001.csv", true, ["NO_2"],
    [⟨some ⟨2001, 1⟩, [("NO_2", some 4)]⟩, ⟨some ⟨2001, 4⟩, [("NO_2", some 2)]⟩]⟩

/-- A file whose single row has a missing (unparseable) date but a present
`NO_2` value. -/
def exMissingDate : Csv :=
  ⟨"madrid_2010.csv", true, ["NO_2"], [⟨none, [("NO_2", some 10)]⟩]⟩

/-- A file containing the `NO_2` column whose only retained value is `0`,
so the four season means sum to zero. -/
def exZeroVal : Csv :=
  ⟨"madrid_2010.csv", true, ["NO_2"], [⟨some ⟨2010, 1⟩, [("NO_2", some 0)]⟩]⟩

/-- First of two distinct files declaring the same year `2001` (a year
inside the range `pandas` datetimes can represent, so the rows' parsed
dates are realizable). -/
def exA : Csv := ⟨"a_2001.csv", true, ["NO_2"], [⟨some ⟨2001, 5⟩, [("NO_2", some 1)]⟩]⟩

/-- Second of two distinct files declaring the same year `2001`. -/
def exB : Csv := ⟨"b_2001.csv", true, ["NO_2"], [⟨some ⟨2001, 5⟩, [("NO_2", some 3)]⟩]⟩

/-- A file whose station-identifier column is named `station` (the name the
Station Ranking Aggregator reads), together with an `NO_2` column. -/
def exStationCol : Csv :=
  ⟨"madrid_2010.csv", true, ["station", "NO_2"],
    [⟨some ⟨2010, 1⟩, [("station", some 4), ("NO_2", some 10)]⟩]⟩

/-- A file declared (by name) as year `2010` whose rows all parse to year
`2011`. -/
def exMismatch : Csv :=
  ⟨"madrid_2010.csv", true, ["NO_2"], [⟨some ⟨2011, 3⟩, [("NO_2", some 7)]⟩]⟩

/-- A file with a date column but without the `NO_2` column. -/
def exNoCol : Csv :=
  ⟨"madrid_2003.csv", true, ["PM10"], [⟨some ⟨2003, 7⟩, [("PM10", some 5)]⟩]⟩

/-- A 2018-style measurement file for the station ranking: station 1 has
present `NO_2` and `NOx` means, station 2 has a present `NO_2` mean but no
`NOx` value at all. -/
def exStations : Csv :=
  ⟨"madrid_2018.csv", true, ["station", "NO", "NO_2", "NOx"],
    [⟨some ⟨2018, 1⟩, [("station", some 1), ("NO_2", some 30), ("NOx", some 5)]⟩,
     ⟨some ⟨2018, 1⟩, [("station", some 2), ("NO_2", some 10)]⟩]⟩

/-- Station metadata for `exStations`. -/
def exMeta : List (ℚ × Option String) := [(1, some "A"), (2, some "B")]

/-! ### Sorting lemmas shared by several claims -/

theorem sortByName_perm (l : List Csv) : List.Perm (sortByName l) l :=
  l.perm_insertionSort nameLe

theorem sortByName_sorted (l : List Csv) : List.Sorted nameLe (sortByName l) :=
  List.sorted_insertionSort nameLe l

/-- Strict file-name order. -/
def nameLt (a b : Csv) : Prop := a.name.data < b.name.data

theorem sorted_nameLt_of_nodup {l : List Csv} (hs : List.Sorted nameLe l)
    (hn : (l.map Csv.name).Nodup) : List.Sorted nameLt l := by
  have hp : l.Pairwise fun a b => a.name ≠ b.name := List.pairwise_map.mp hn
  exact (hs.and hp).imp fun h =>
    lt_of_le_of_ne h.1 fun he => h.2 (String.ext he)

/-- Two permuted listings with duplicate-free file names sort identically:
this is why `sorted(...)` makes the pipelines independent of the order in
which the OS enumerates the files. -/
theorem sortByName_eq_of_perm {l₁ l₂ : List Csv} (hp : List.Perm l₁ l₂)
    (hn : (l₁.map Csv.name).Nodup) : sortByName l₁ = sortByName l₂ := by
  haveI : IsAntisymm Csv nameLt := ⟨fun _ _ h1 h2 => (lt_asymm h1 h2).elim⟩
  have hperm : List.Perm (sortByName l₁) (sortByName l₂) :=
    ((sortByName_perm l₁).trans hp).trans (sortByName_perm l₂).symm
  have hn1 : ((sortByName l₁).map Csv.name).Nodup :=
    (((sortByName_perm l₁).map Csv.name).nodup_iff).mpr hn
  have hn2 : ((sortByName l₂).map Csv.name).Nodup :=
    ((hperm.map Csv.name).nodup_iff).mp hn1
  exact List.eq_of_perm_of_sorted hperm
    (sorted_nameLt_of_nodup (sortByName_sorted l₁) hn1)
    (sorted_nameLt_of_nodup (sortByName_sorted l₂) hn2)

theorem sortByName_nil_iff (l : List Csv) : sortByName l = [] ↔ l = [] := by
  constructor
  · intro h
    have := sortByName_perm l
    rw [h] at this
    exact this.symm.eq_nil
  · intro h
    rw [h]
    rfl

/-! ### C9: seasonal aggregator no-input error -/

theorem seasonalCollect_ne_noInput (l : List Csv) :
    seasonalCollect l ≠ .error PipeErr.noInput := by
  induction l with
  | nil => simp [seasonalCollect]
  | cons f fs ih =>
    by_cases h : f.hasDate = true
    · cases hc : seasonalCollect fs with
      | error e =>
        have he : e ≠ PipeErr.noInput := fun hh => ih (by rw [hc, hh])
        simp [seasonalCollect, h, hc, Except.map, he]
      | ok ls => simp [seasonalCollect, h, hc, Except.map]
    · simp [seasonalCollect, h]

/-- C9: the Seasonal Aggregator raises its no-input (`FileNotFoundError`)
error exactly when the file glob matched zero files; with at least one file
this error is never raised. -/
theorem C9_seasonal_no_input (files : List Csv) :
    seasonalPipeline files = .error PipeErr.noInput ↔ files = [] := by
  simp only [seasonalPipeline, seasonalSorted]
  constructor
  · intro h
    by_cases he : sortByName files = []
    · exact (sortByName_nil_iff files).mp he
    · rw [if_neg he] at h
      cases hc : seasonalCollect (sortByName files) with
      | error e =>
        rw [hc] at h
        simp only [Except.error.injEq] at h
        exact absurd (hc.trans (by rw [h])) (seasonalCollect_ne_noInput _)
      | ok ls =>
        rw [hc] at h
        simp at h
  · intro h
    subst h
    rfl

/-- Witness for C9 at concrete inputs: the empty glob errors, a one-file
glob does not. -/
theorem C9_witness :
    seasonalPipeline ([] : List Csv) = .error PipeErr.noInput ∧
      seasonalPipeline [exWinter] ≠ .error PipeErr.noInput :=
  ⟨(C9_seasonal_no_input []).mpr rfl,
   fun h => by simpa using (C9_seasonal_no_input [exWinter]).mp h⟩

/-! ### C10: determinism of the aggregators -/

/-- C10: each aggregation is a pure function of the input files, and the
sorting of the directory/glob listing makes the three multi-file pipelines
independent of the order in which the OS presents the files: any two runs
over the same files (in any enumeration order, with the duplicate-free
names a file system guarantees) produce identical output tables.  The
Station Ranking Aggregator reads two fixed files, so its determinism is
definitional. -/
theorem C10_determinism (l₁ l₂ : List Csv) (hp : List.Perm l₁ l₂)
    (hn : (l₁.map Csv.name).Nodup) :
    annualPipeline l₁ = annualPipeline l₂ ∧ seasonalPipeline l₁ = seasonalPipeline l₂ ∧
      ∀ p, pieShares p l₁ = pieShares p l₂ := by
  have he := sortByName_eq_of_perm hp hn
  refine ⟨?_, ?_, fun p => ?_⟩
  · simp only [annualPipeline, he]
  · simp only [seasonalPipeline, he]
  · simp only [pieShares, he]

/-- Witness for C10: the same two files presented in both orders. -/
theorem C10_witness :
    annualPipeline [exA, exB] = annualPipeline [exB, exA] ∧
      seasonalPipeline [exA, exB] = seasonalPipeline [exB, exA] ∧
      ∀ p, pieShares p [exA, exB] = pieShares p [exB, exA] :=
  C10_determinism [exA, exB] [exB, exA] (List.Perm.swap exB exA []) (by decide)

/-! ### C4: annual summary ordering -/

theorem annualOfFile_year {y : Int} {f : Csv} {row : AnnualRow}
    (h : annualOfFile y f = some row) : row.year = y := by
  simp only [annualOfFile] at h
  split at h
  · exact absurd h (by simp)
  · split at h
    · exact absurd h (by simp)
    · simp only [Option.some.injEq] at h
      rw [← h]

/-- The years accumulated by the annual loop appear, in order, among the
years declared by the processed file names. -/
theorem collectAnnual_years_sublist (l : List Csv) (r : List AnnualRow)
    (h : collectAnnual l = .ok r) :
    (r.map AnnualRow.year).Sublist (l.filterMap fun f => declaredYear f.name) := by
  induction l generalizing r with
  | nil =>
    simp only [collectAnnual, Except.ok.injEq] at h
    subst h
    simp
  | cons f fs ih =>
    rw [collectAnnual] at h
    cases hs : annualStep f with
    | error e => rw [hs] at h; cases h
    | ok o =>
      cases o with
      | none =>
        rw [hs] at h
        have hsub := ih r h
        rw [List.filterMap_cons]
        cases hdy : declaredYear f.name with
        | none => simpa using hsub
        | some y => exact hsub.cons _
      | some row =>
        rw [hs] at h
        cases hc : collectAnnual fs with
        | error e => rw [hc] at h; cases h
        | ok rs =>
          rw [hc] at h
          simp only [Except.map, Except.ok.injEq] at h
          subst h
          have hy : declaredYear f.name = some row.year := by
            simp only [annualStep] at hs
            split at hs
            · exact absurd hs (by simp)
            · cases hdy : declaredYear f.name with
              | none => rw [hdy] at hs; cases hs
              | some y =>
                rw [hdy] at hs
                simp only [Except.ok.injEq] at hs
                rw [annualOfFile_year hs]
          rw [List.filterMap_cons, hy]
          exact (ih rs hc).cons₂ _

/-- C4 (amended): the annual summary is always sorted ascending by year;
when the years declared by the input file names are pairwise distinct (as
the one-file-per-year input contract of the spec guarantees) it is sorted
strictly ascending, hence has no duplicate years.  Two distinct file names
declaring the same year (see `C4_counterexample`) produce duplicate
years. -/
theorem C4_annual_sorted (files : List Csv) (out : List AnnualRow)
    (h : annualPipeline files = .ok out) :
    (out.map AnnualRow.year).Sorted (· ≤ ·) ∧
      ((files.filterMap fun f => declaredYear f.name).Nodup →
        (out.map AnnualRow.year).Sorted (· < ·)) := by
  unfold annualPipeline annualSorted at h
  cases hc : collectAnnual (sortByName files) with
  | error e => rw [hc] at h; cases h
  | ok l =>
    rw [hc] at h
    cases l with
    | nil => simp at h
    | cons a as =>
      simp only [Except.ok.injEq] at h
      subst h
      have hsorted : ((sortByYear (a :: as)).map AnnualRow.year).Sorted (· ≤ ·) :=
        List.pairwise_map.mpr ((List.sorted_insertionSort yearLe (a :: as)).imp fun hh => hh)
      refine ⟨hsorted, fun hnd => ?_⟩
      have hnd2 : ((sortByName files).filterMap fun f => declaredYear f.name).Nodup :=
        (((sortByName_perm files).filterMap fun f => declaredYear f.name).nodup_iff).mpr hnd
      have hnd3 : (((a :: as)).map AnnualRow.year).Nodup :=
        (collectAnnual_years_sublist _ _ hc).nodup hnd2
      have hnd4 : ((sortByYear (a :: as)).map AnnualRow.year).Nodup := by
        have hperm : List.Perm ((sortByYear (a :: as)).map AnnualRow.year)
            ((a :: as).map AnnualRow.year) :=
          (List.perm_insertionSort yearLe (a :: as)).map AnnualRow.year
        exact hperm.nodup_iff.mpr hnd3
      exact (hsorted.and hnd4).imp fun hh => lt_of_le_of_ne hh.1 hh.2

/-- Counterexample for C4 as stated: the two distinct files `a_2001.csv`
and `b_2001.csv` both declare year 2001 (with rows genuinely dated 2001),
and the annual summary then carries that year twice — not strictly
ascending, with a duplicate year. -/
theorem C4_counterexample :
    (annualPipeline [exA, exB]).toOption.map (fun l => l.map AnnualRow.year) =
        some [2001, 2001] ∧
      ¬ ([2001, 2001] : List Int).Nodup :=
  ⟨by decide, by decide⟩

/-- Witness for C4 (amended) at a concrete input: one well-formed file. -/
theorem C4_witness :
    ([(⟨2001, [("NO_2", some 3)]⟩ : AnnualRow)].map AnnualRow.year).Sorted (· < ·) := by
  have h : annualPipeline [exWinter] = .ok [⟨2001, [("NO_2", some 3)]⟩] := by
    norm_num +decide [annualPipeline, annualSorted, collectAnnual, annualStep, annualOfFile,
      sortByName, List.insertionSort, sortByYear, eligible, declaredYear, splitOnChar, intOfChars,
      digitsAux, digitVal, POLLUTANTS, meanOpt, meanQ, Row.get, exWinter, Except.map,
      List.filterMap_cons, List.lookup, Option.join]
  exact (C4_annual_sorted [exWinter] _ h).2 (by decide)

/-! ### C3: year filter and skipping in the annual loop -/

/-- C3: the per-file annual average only depends on the rows whose parsed
year equals the year declared by the file name (restricting the file to
those rows changes nothing); a file with zero such rows, or with none of
the tracked pollutant columns, contributes no row; and the annual loop
continues over the remaining files without an error when a file is
skipped. -/
theorem C3_annual_year_filter (y : Int) (f : Csv) (fs : List Csv) :
    annualOfFile y f =
        annualOfFile y
          { f with rows := f.rows.filter fun r => decide (r.date.map SDate.year = some y) } ∧
      ((POLLUTANTS.filter (fun c => decide (c ∈ f.cols)) = [] ∨
          (f.rows.filter fun r => decide (r.date.map SDate.year = some y)) = []) →
        annualOfFile y f = none) ∧
      (eligible f = true → declaredYear f.name = some y → annualOfFile y f = none →
        collectAnnual (f :: fs) = collectAnnual fs) := by
  refine ⟨?_, ?_, ?_⟩
  · simp only [annualOfFile, List.filter_filter, Bool.and_self]
  · intro hskip
    simp only [annualOfFile]
    rw [if_pos hskip]
    simp
  · intro he hy hnone
    have hstep : annualStep f = .ok none := by
      simp only [annualStep, he, hy, hnone]
      simp
    rw [collectAnnual, hstep]

/-- Witness for C3: `exMismatch` declares year 2010 but every row parses to
2011, so it is skipped and contributes nothing. -/
theorem C3_witness :
    annualOfFile 2010 exMismatch = none ∧ collectAnnual [exMismatch] = collectAnnual [] :=
  ⟨(C3_annual_year_filter 2010 exMismatch []).2.1 (Or.inr (by decide)),
   (C3_annual_year_filter 2010 exMismatch []).2.2 (by decide) (by decide)
     ((C3_annual_year_filter 2010 exMismatch []).2.1 (Or.inr (by decide)))⟩

/-! ### C1: dense ranking of seasonal means -/

theorem denseRank_eq_one (G : List ℚ) (a : ℚ) (hmax : ∀ x ∈ G, x ≤ a) :
    denseRank G a = 1 := by
  unfold denseRank
  have hnil : G.filter (fun x => decide (a < x)) = [] := by
    rw [List.filter_eq_nil_iff]
    intro x hx
    simpa using not_lt.mpr (hmax x hx)
  rw [hnil]
  rfl

theorem denseRank_succ (G : List ℚ) (a b : ℚ) (ha : a ∈ G) (hba : b < a)
    (hno : ∀ t ∈ G, ¬(b < t ∧ t < a)) : denseRank G b = denseRank G a + 1 := by
  unfold denseRank
  have hfin : (G.filter fun x => decide (b < x)).toFinset =
      insert a (G.filter fun x => decide (a < x)).toFinset := by
    ext x
    simp only [List.mem_toFinset, List.mem_filter, decide_eq_true_eq, Finset.mem_insert]
    constructor
    · rintro ⟨hxG, hbx⟩
      by_cases hxa : x = a
      · exact Or.inl hxa
      · refine Or.inr ⟨hxG, ?_⟩
        rcases lt_trichotomy x a with h1 | h1 | h1
        · exact absurd ⟨hbx, h1⟩ (hno x hxG)
        · exact absurd h1 hxa
        · exact h1
    · rintro (rfl | ⟨hxG, hax⟩)
      · exact ⟨ha, hba⟩
      · exact ⟨hxG, hba.trans hax⟩
  have hnotmem : a ∉ (G.filter fun x => decide (a < x)).toFinset := by
    simp only [List.mem_toFinset, List.mem_filter, decide_eq_true_eq]
    rintro ⟨-, haa⟩
    exact lt_irrefl a haa
  have hcard := congrArg Finset.card hfin
  rw [Finset.card_insert_of_not_mem hnotmem, List.card_toFinset, List.card_toFinset] at hcard
  omega

theorem rankCol_mem {rows : List AvgRow} {x : AvgRow × Nat} (hx : x ∈ rankCol rows) :
    x.1 ∈ rows ∧ x.2 = denseRank (rankGroup rows x.1) x.1.avg := by
  unfold rankCol at hx
  rcases List.mem_map.mp hx with ⟨r, hr, heq⟩
  rw [← heq]
  exact ⟨hr, rfl⟩

theorem rankCol_mem_of {rows : List AvgRow} {r : AvgRow} (hr : r ∈ rows) :
    (r, denseRank (rankGroup rows r) r.avg) ∈ rankCol rows := by
  unfold rankCol
  exact List.mem_map.mpr ⟨r, hr, rfl⟩

theorem mem_rankGroup {rows : List AvgRow} {r : AvgRow} (v : ℚ) :
    v ∈ rankGroup rows r ↔
      ∃ z ∈ rows, z.year = r.year ∧ z.pollutant = r.pollutant ∧ z.avg = v := by
  unfold rankGroup
  simp only [List.mem_map, List.mem_filter, Bool.and_eq_true, decide_eq_true_eq]
  constructor
  · rintro ⟨z, ⟨hz, hy, hp⟩, hv⟩
    exact ⟨z, hz, hy, hp, hv⟩
  · rintro ⟨z, hz, hy, hp, hv⟩
    exact ⟨z, ⟨hz, hy, hp⟩, hv⟩

theorem rankGroup_congr {rows : List AvgRow} {z r : AvgRow} (hy : z.year = r.year)
    (hp : z.pollutant = r.pollutant) : rankGroup rows z = rankGroup rows r := by
  unfold rankGroup
  rw [hy, hp]

/-- C1: in the ranked seasonal output, within every `(year, pollutant)`
group the rank column is a dense descending ranking of the group means: a
row whose mean is maximal in its group has rank 1; rows with equal means
have equal ranks; and a row whose mean is the next distinct value below
another row's mean has that row's rank plus one (no rank is skipped). -/
theorem C1_seasonal_dense_rank (files : List Csv) (out : List (AvgRow × Nat))
    (h : seasonalPipeline files = .ok out) (x : AvgRow × Nat) (hx : x ∈ out) :
    ((∀ z ∈ out, z.1.year = x.1.year → z.1.pollutant = x.1.pollutant → z.1.avg ≤ x.1.avg) →
        x.2 = 1) ∧
      (∀ z ∈ out, z.1.year = x.1.year → z.1.pollutant = x.1.pollutant → z.1.avg = x.1.avg →
        z.2 = x.2) ∧
      (∀ z ∈ out, z.1.year = x.1.year → z.1.pollutant = x.1.pollutant → z.1.avg < x.1.avg →
        (∀ t ∈ out, t.1.year = x.1.year → t.1.pollutant = x.1.pollutant →
          ¬(z.1.avg < t.1.avg ∧ t.1.avg < x.1.avg)) →
        z.2 = x.2 + 1) := by
  have hout : ∃ rows : List AvgRow, out = rankCol rows := by
    unfold seasonalPipeline seasonalSorted at h
    split at h
    · cases h
    · cases hc : seasonalCollect (sortByName files) with
      | error e => rw [hc] at h; cases h
      | ok ls =>
        rw [hc] at h
        simp only [Except.ok.injEq] at h
        exact ⟨dataAvg ls.flatten, h.symm⟩
  rcases hout with ⟨rows, hrows⟩
  subst hrows
  obtain ⟨hx1, hx2⟩ := rankCol_mem hx
  refine ⟨?_, ?_, ?_⟩
  · intro hmax
    rw [hx2]
    refine denseRank_eq_one _ _ fun v hv => ?_
    rcases (mem_rankGroup v).mp hv with ⟨z, hz, hy, hp, hvz⟩
    rw [← hvz]
    exact hmax (z, denseRank (rankGroup rows z) z.avg) (rankCol_mem_of hz) hy hp
  · intro z hz hy hp havg
    obtain ⟨hz1, hz2⟩ := rankCol_mem hz
    rw [hz2, hx2, rankGroup_congr hy hp, havg]
  · intro z hz hy hp hlt hno
    obtain ⟨hz1, hz2⟩ := rankCol_mem hz
    rw [hz2, hx2, rankGroup_congr hy hp]
    refine denseRank_succ _ _ _ ((mem_rankGroup _).mpr ⟨x.1, hx1, rfl, rfl, rfl⟩) hlt ?_
    intro t ht
    rcases (mem_rankGroup t).mp ht with ⟨w, hw, hwy, hwp, hwv⟩
    rw [← hwv]
    exact hno (w, denseRank (rankGroup rows w) w.avg) (rankCol_mem_of hw) hwy hwp

/-- Witness for C1: on a concrete one-file input the Spring row (the next
distinct mean below Winter's) gets Winter's rank plus one. -/
theorem C1_witness : (2 : Nat) = 1 + 1 := by
  have h : seasonalPipeline [exWinter] =
      .ok [(⟨2001, "Winter", "NO_2", 4⟩, 1), (⟨2001, "Spring", "NO_2", 2⟩, 2)] := by
    simp +decide [seasonalPipeline, seasonalSorted, seasonalCollect, sortByName,
      List.insertionSort, meltFile, HOUSE, dataAvg, groupKeys, groupVals, meanQ, rankCol,
      rankGroup, denseRank, Row.get, seasonOfMonth, exWinter, Except.map]
  exact (C1_seasonal_dense_rank [exWinter] _ h (⟨2001, "Winter", "NO_2", 4⟩, 1) (by decide)).2.2
    (⟨2001, "Spring", "NO_2", 2⟩, 2) (by decide) rfl rfl (by decide) (by decide)

/-! ### C2: seasonal shares sum to one -/

theorem pieRow_mean_filterMap (means : List (String × Option ℚ)) (c : ℚ) :
    ((means.map fun sm => PieRow.mk sm.1 sm.2 (sm.2.map (· / c))).filterMap (·.mean)) =
      means.filterMap (·.2) := by
  induction means with
  | nil => rfl
  | cons a l ih => cases h : a.2 <;> simp [List.filterMap_cons, h, ih]

theorem pieRow_percent_filterMap (means : List (String × Option ℚ)) (c : ℚ) :
    ((means.map fun sm => PieRow.mk sm.1 sm.2 (sm.2.map (· / c))).filterMap (·.percent)) =
      (means.filterMap (·.2)).map (· / c) := by
  induction means with
  | nil => rfl
  | cons a l ih => cases h : a.2 <;> simp [List.filterMap_cons, h, ih]

theorem sum_map_div (l : List ℚ) (c : ℚ) : (l.map (· / c)).sum = l.sum / c := by
  induction l with
  | nil => simp
  | cons a l ih => simp [ih, add_div]

/-- The pandas sum of the present share percentages is the sum of the
present means divided by itself. -/
theorem mkShares_sum (kept : List (List (String × ℚ)))
    (ht : shareTotal (mkShares kept) ≠ 0) : shareSum (mkShares kept) = 1 := by
  unfold shareSum shareTotal mkShares at *
  rw [pieRow_mean_filterMap] at ht
  rw [pieRow_percent_filterMap, sum_map_div, div_self ht]

/-- C2 (amended): whenever the Seasonal Share Aggregator produces its
table and the (pandas, missing-skipping) sum of the four season means is
nonzero, the present share percentages sum to exactly 1.  When that sum is
zero — e.g. a file that contains the target pollutant column but only a
zero (or no) retained value — the shares do not sum to 1 (see
`C2_counterexample`). -/
theorem C2_pie_shares_sum (p : String) (files : List Csv) (out : List PieRow)
    (h : pieShares p files = .ok out) (ht : shareTotal out ≠ 0) : shareSum out = 1 := by
  have hout : ∃ kept, out = mkShares kept := by
    unfold pieShares pieSorted at h
    cases hc : pieCollect p (sortByName files) with
    | error e => rw [hc] at h; cases h
    | ok kept =>
      rw [hc] at h
      cases kept with
      | nil => cases h
      | cons k ks =>
        simp only [Except.ok.injEq] at h
        exact ⟨k :: ks, h.symm⟩
  rcases hout with ⟨kept, rfl⟩
  exact mkShares_sum kept ht

/-- Counterexample for C2 as stated: `exZeroVal` contains the target
pollutant column, yet the only retained value is `0`, the season means sum
to `0`, and the shares sum to `0`, not `1`. -/
theorem C2_counterexample :
    ("NO_2" ∈ exZeroVal.cols) ∧
      (pieShares "NO_2" [exZeroVal]).toOption.map shareSum = some 0 ∧ (0 : ℚ) ≠ 1 := by
  refine ⟨by decide, ?_, by norm_num⟩
  have h : pieShares "NO_2" [exZeroVal] =
      .ok [⟨"Winter", some 0, some 0⟩, ⟨"Spring", none, none⟩, ⟨"Summer", none, none⟩,
        ⟨"Fall", none, none⟩] := by
    simp +decide [pieShares, pieSorted, pieCollect, sortByName, List.insertionSort, pieFileRows,
      mkShares, SEASONS, meanOpt, meanQ, Row.get, seasonOfMonth, exZeroVal, Except.map]
  rw [h]
  norm_num [shareSum, Except.toOption, List.filterMap_cons]

/-- Witness for C2 (amended) at a concrete input. -/
theorem C2_witness :
    shareSum [⟨"Winter", some 4, some (2 / 3 : ℚ)⟩, ⟨"Spring", some 2, some (1 / 3 : ℚ)⟩,
      ⟨"Summer", none, none⟩, ⟨"Fall", none, none⟩] = 1 := by
  have h : pieShares "NO_2" [exWinter] =
      .ok [⟨"Winter", some 4, some (2 / 3 : ℚ)⟩, ⟨"Spring", some 2, some (1 / 3 : ℚ)⟩,
        ⟨"Summer", none, none⟩, ⟨"Fall", none, none⟩] := by
    simp +decide [pieShares, pieSorted, pieCollect, sortByName, List.insertionSort, pieFileRows,
      mkShares, SEASONS, meanOpt, meanQ, Row.get, seasonOfMonth, exWinter, Except.map]
    norm_num
  exact C2_pie_shares_sum "NO_2" [exWinter] _ h (by norm_num [shareTotal, List.filterMap_cons])

/-! ### C7: pie chart skips files lacking the pollutant; fatal error iff none has it -/

theorem pieCollect_ok (p : String) (l : List Csv) (hd : ∀ f ∈ l, f.hasDate = true) :
    pieCollect p l = .ok ((l.filter fun f => decide (p ∈ f.cols)).map (pieFileRows p)) := by
  induction l with
  | nil => rfl
  | cons f fs ih =>
    have hdf : f.hasDate = true := hd f (by simp)
    have ihh := ih fun g hg => hd g (by simp [hg])
    by_cases hp : p ∈ f.cols
    · simp [pieCollect, hdf, hp, ihh, Except.map, List.filter_cons]
    · simp [pieCollect, hdf, hp, ihh, List.filter_cons]

theorem pieCollect_orderedInsert_skip (p : String) (g : Csv) (hgd : g.hasDate = true)
    (hgp : p ∉ g.cols) (l : List Csv) :
    pieCollect p (l.orderedInsert nameLe g) = pieCollect p l := by
  induction l with
  | nil => simp [List.orderedInsert, pieCollect, hgd, hgp]
  | cons b bs ih =>
    by_cases hle : nameLe g b
    · simp only [List.orderedInsert, if_pos hle]
      simp [pieCollect, hgd, hgp]
    · simp only [List.orderedInsert, if_neg hle]
      by_cases hbd : b.hasDate = true
      · by_cases hbp : p ∈ b.cols <;> simp [pieCollect, hbd, hbp, ih]
      · simp [pieCollect, hbd]

/-- C7: (i) the Seasonal Share Aggregator fails (with its fatal
no-usable-data error) exactly when no input file contains the target
pollutant column, and (ii) a file lacking the target pollutant column is
skipped: adding such a file to the input leaves the output unchanged,
processing continuing over the remaining files.  (Both under the §6 input
contract that every yearly file has a `date` column, since
`read_csv(parse_dates=['date'])` would otherwise raise before the column
check.) -/
theorem C7_pie_skip_and_error (p : String) (files : List Csv)
    (hd : ∀ f ∈ files, f.hasDate = true) :
    (isErr (pieShares p files) = true ↔ ∀ f ∈ files, p ∉ f.cols) ∧
      (∀ g, g.hasDate = true → p ∉ g.cols → pieShares p (g :: files) = pieShares p files) := by
  constructor
  · have hd2 : ∀ f ∈ sortByName files, f.hasDate = true := fun f hf =>
      hd f ((sortByName_perm files).mem_iff.mp hf)
    unfold pieShares pieSorted
    rw [pieCollect_ok p _ hd2]
    cases hfl : (sortByName files).filter (fun f => decide (p ∈ f.cols)) with
    | nil =>
      simp only [List.map_nil]
      refine iff_of_true rfl ?_
      rw [List.filter_eq_nil_iff] at hfl
      intro f hf hp
      exact hfl f (by simp [sortByName, hf]) (by simpa using hp)
    | cons a as =>
      have ha : a ∈ (sortByName files).filter fun f => decide (p ∈ f.cols) := by
        rw [hfl]
        exact List.mem_cons_self a as
      have hmem := List.mem_filter.mp ha
      refine iff_of_false ?_ ?_
      · simp [isErr]
      · intro hall
        exact hall a (by simpa [sortByName] using hmem.1) (by simpa using hmem.2)
  · intro g hgd hgp
    have hcoll : pieCollect p (sortByName (g :: files)) = pieCollect p (sortByName files) := by
      have h1 : sortByName (g :: files) = (sortByName files).orderedInsert nameLe g := rfl
      rw [h1, pieCollect_orderedInsert_skip p g hgd hgp]
    unfold pieShares pieSorted
    rw [hcoll]

/-- Witness for C7: adding a file without the `NO_2` column changes
nothing. -/
theorem C7_witness :
    pieShares "NO_2" (exNoCol :: [exWinter]) = pieShares "NO_2" [exWinter] :=
  (C7_pie_skip_and_error "NO_2" [exWinter] (by decide)).2 exNoCol (by decide) (by decide)

/-! ### C6: columns excluded from the melt -/

/-- C6 (amended): the melt of the Seasonal Aggregator excludes exactly the
five literal column names `date`, `station_id`, `month`, `year`, `season`:
every melted row's pollutant is a file column outside that list, and every
file column outside that list with a present value is melted.  In
particular a station-identifier column named anything else — such as
`station`, the name the Station Ranking Aggregator reads — appears as a
pollutant (see `C6_counterexample`). -/
theorem C6_melt_excludes (f : Csv) :
    (∀ r ∈ meltFile f, r.pollutant ∈ f.cols ∧ r.pollutant ∉ HOUSE) ∧
      (∀ c ∈ f.cols, c ∉ HOUSE → ∀ row ∈ f.rows, ∀ v, row.get c = some v →
        (⟨row.date.map SDate.year, seasonOfMonth (row.date.map SDate.month), c, v⟩ : LongRow) ∈
          meltFile f) := by
  constructor
  · intro r hr
    unfold meltFile at hr
    rcases List.mem_flatMap.mp hr with ⟨row, hrow, hin⟩
    rcases List.mem_filterMap.mp hin with ⟨c, hc, heq⟩
    have hcf := List.mem_filter.mp hc
    cases hg : row.get c with
    | none => rw [hg] at heq; cases heq
    | some v =>
      rw [hg] at heq
      simp only [Option.map_some', Option.some.injEq] at heq
      rw [← heq]
      exact ⟨hcf.1, by simpa using hcf.2⟩
  · intro c hc hch row hrow v hv
    unfold meltFile
    refine List.mem_flatMap.mpr ⟨row, hrow, ?_⟩
    refine List.mem_filterMap.mpr ⟨c, List.mem_filter.mpr ⟨hc, by simpa using hch⟩, ?_⟩
    rw [hv]
    rfl

/-- Counterexample for C6 as stated: in a file whose station-identifier
column is named `station` (as the repository's own station-ranking code
reads it), the station identifier is melted as a pollutant of the
long-form output. -/
theorem C6_counterexample :
    (⟨some 2010, "Winter", "station", 4⟩ : LongRow) ∈ meltFile exStationCol := by
  decide

/-- Witness for C6 (amended): an ordinary pollutant column is melted. -/
theorem C6_witness :
    (⟨some 2010, "Winter", "NO_2", 10⟩ : LongRow) ∈ meltFile exStationCol :=
  (C6_melt_excludes exStationCol).2 "NO_2" (by decide) (by decide)
    ⟨some ⟨2010, 1⟩, [("station", some 4), ("NO_2", some 10)]⟩ (by decide) 10 (by decide)

/-! ### C8: per-pollutant station ranking lists -/

/-- C8: for each pollutant, the ranking list is sorted descending by that
pollutant's per-station mean; every station with a present mean appears
(with its joined display name and that mean), and every list entry comes
from a station with a present mean — so a station with a missing mean for
one pollutant is absent from that pollutant's list while still appearing
in the lists where its mean is present. -/
theorem C8_station_ranking (f : Csv) (meta : List (ℚ × Option String)) (p : String)
    (_hp : p ∈ SEL) :
    (stationList f meta p).Sorted valGe ∧
      (∀ s ∈ stationKeys f, ∀ v, meanOf f s p = some v →
        RankRow.mk (displayName meta s) v ∈ stationList f meta p) ∧
      (∀ r ∈ stationList f meta p, ∃ s ∈ stationKeys f,
        meanOf f s p = some r.val ∧ displayName meta s = r.name) := by
  refine ⟨List.sorted_insertionSort valGe _, ?_, ?_⟩
  · intro s hs v hv
    unfold stationList
    rw [List.mem_insertionSort]
    exact List.mem_filterMap.mpr ⟨s, hs, by rw [hv]; rfl⟩
  · intro r hr
    unfold stationList at hr
    rw [List.mem_insertionSort] at hr
    rcases List.mem_filterMap.mp hr with ⟨s, hs, heq⟩
    cases hm : meanOf f s p with
    | none => rw [hm] at heq; cases heq
    | some v =>
      rw [hm] at heq
      simp only [Option.map_some', Option.some.injEq] at heq
      subst heq
      exact ⟨s, hs, hm, rfl⟩

/-- Witness for C8 (the spec's Example 2 shape): station B, whose `NO_2`
mean is present, appears in the `NO_2` list. -/
theorem C8_witness : RankRow.mk "B" 10 ∈ stationList exStations exMeta "NO_2" :=
  (C8_station_ranking exStations exMeta "NO_2" (by decide)).2.1 2 (by decide) 10
    (by
      have h1 : ((exStations.rows.filter fun r => decide (r.get "station" = some 2)).filterMap
          fun r => r.get "NO_2") = [10] := by decide
      simp only [meanOf, h1, meanOpt, meanQ]
      norm_num)

/-! ### C5: rows with missing dates in the share pipeline -/

/-- C5 (refuting the claim; the code contradicts the documented behavior):
the season lambda maps a missing month to `"Fall"`, so in the Seasonal
Share Aggregator a row whose date failed to parse receives the season
label `Fall` and its value enters the Fall mean: on `exMissingDate` (one
row, missing date, `NO_2 = 10`) the Fall share table row carries mean 10
and share 1.  The grouped seasonal pipeline, by contrast, drops the same
row because its missing year is dropped as a group key, and the annual
pipeline's year filter drops it too — the exclusion the claim states for
every pipeline fails exactly in the share pipeline. -/
theorem C5_missing_date_bug :
    seasonOfMonth none = "Fall" ∧
      pieShares "NO_2" [exMissingDate] =
        .ok [⟨"Winter", none, none⟩, ⟨"Spring", none, none⟩, ⟨"Summer", none, none⟩,
          ⟨"Fall", some 10, some 1⟩] ∧
      seasonalPipeline [exMissingDate] = .ok [] := by
  refine ⟨rfl, ?_, ?_⟩
  · simp +decide [pieShares, pieSorted, pieCollect, sortByName, List.insertionSort, pieFileRows,
      mkShares, SEASONS, meanOpt, meanQ, Row.get, seasonOfMonth, exMissingDate, Except.map]
  · simp +decide [seasonalPipeline, seasonalSorted, seasonalCollect, sortByName,
      List.insertionSort, meltFile, HOUSE, dataAvg, groupKeys, groupVals, meanQ, rankCol,
      rankGroup, denseRank, Row.get, seasonOfMonth, exMissingDate, Except.map]
